import Mathlib

/-!
# gcache: the shared cache skeleton (`cache.go`)

A shallow embedding of `cache.go`: the eviction-policy identifiers, the
`baseCache` and `Config` records, the configuration step `buildCache`, and the
loader path `baseCache.load` with the fault-recovering producer it hands to
`loadGroup.Do`.

Modelling conventions.
* A Go `interface{}` value is `Iface U = Option U`: `none` is `nil`, `some u` is a
  non-nil dynamic value. A nilable pointer or func value is an `Option` as well.
* `time.Duration` and `int` are integers; no arithmetic is performed on them here.
* A Go call that may raise a runtime fault is an `Outcome`: it returns, or it
  panics with the value that `recover()` hands to a deferred function; that value
  is an `interface{}` and may be nil.
* Pointers are modelled by the value they point to, so two states are equal when
  they agree field by field up to the identity of freshly allocated cells.
* `buildCache` and `load` mutate their receiver; here they return the new state.
-/

namespace gcache

/-! ## Values, errors, faults -/

/-- Go's `interface{}`: `none` is `nil`, `some u` a non-nil dynamic value. -/
abbrev Iface (U : Type) := Option U

/-- Go's `time.Duration` (a signed count of nanoseconds). -/
abbrev Duration := Int

/-- A non-nil Go `error` value, identified by its message. -/
structure GoError where
  msg : String
deriving DecidableEq, Repr

/-- Go's `error` interface: `none` is the nil error. -/
abbrev error := Option GoError

/-- The error built by `errors.New` and by `fmt.Errorf` from the finished message. -/
def Errorf (msg : String) : GoError := ⟨msg⟩

/-- Source: `var ErrKeyNotFound = errors.New("key not found")`. -/
def ErrKeyNotFound : GoError := Errorf "key not found"

/-- Result of evaluating a Go call: a normal return, or a runtime fault carrying
the value `r` that `recover()` yields in a deferred function. `panic` takes an
`interface{}`, so `r` may be nil: that is what `recover()` returns after
`panic(nil)` when the main module declares go 1.20 or earlier, has no go directive,
or runs with `GODEBUG=panicnil=1`. From go 1.21 on `panic(nil)` is delivered as
a non-nil `*runtime.PanicNilError`, and only `some _` payloads occur. -/
inductive Outcome (U : Type) (α : Type) where
  | ret (a : α) : Outcome U α
  | panic (r : Iface U) : Outcome U α
deriving DecidableEq, Repr

/-! ## Eviction-policy identifiers (`const ( ... iota ...)`) -/

/-- Value of `iota` on the given line (counted from 0) of a `const` block. -/
def iota (line : Nat) : Int := Int.ofNat line

/-- Source: `TypeSimple int = iota`, first line of the block. -/
def TypeSimple : Int := iota 0

/-- Source: `TypeLRU`, second line, repeating `int = iota`. -/
def TypeLRU : Int := iota 1

/-- Source: `TypeLFU`, third line. -/
def TypeLFU : Int := iota 2

/-- Source: `TypeARC`, fourth and last line. -/
def TypeARC : Int := iota 3

/-- All identifiers declared by the `const` block, in source order. -/
def cacheTypes : List Int := [TypeSimple, TypeLRU, TypeLFU, TypeARC]

/-! ## Records -/

/-- Modelled from the spec: the `stats` struct is declared outside `cache.go`; the
spec describes it as the hit and miss counters (lookups being their sum). The zero
value `stats{}` has every counter at 0. -/
structure stats where
  hitCount : Nat := 0
  missCount : Nat := 0
deriving DecidableEq, Repr

/-- Source: `type baseCache struct`. `Clock`, `Mutex` (for `sync.RWMutex`) and
`Group` are types declared elsewhere and kept abstract; `Eff` is what a
fire-and-forget callback does when invoked. -/
structure baseCache (U Eff Clock Mutex Group : Type) where
  clock : Clock
  size : Int
  mu : Mutex
  defaultTTL : Option Duration
  onAdd : Option (Iface U → Iface U → Eff)
  onDel : Option (Iface U → Iface U → Eff)
  onEvict : Option (Iface U → Iface U → Eff)
  onMiss : Option (Iface U → Eff)
  onPurge : Option (Iface U → Iface U → Eff)
  deserializeWith : Option (Iface U → Iface U → Iface U × error)
  serializeWith : Option (Iface U → Iface U → Iface U × error)
  loadGroup : Group
  stats : Option stats

/-- Source: `type Config struct`. -/
structure Config (U Eff : Type) where
  cacheType : Int
  Size : Int
  DefaultTTL : Duration
  OnAdd : Option (Iface U → Iface U → Eff)
  OnDel : Option (Iface U → Iface U → Eff)
  OnEvict : Option (Iface U → Iface U → Eff)
  OnMiss : Option (Iface U → Eff)
  OnPurge : Option (Iface U → Iface U → Eff)
  DeserializeWith : Option (Iface U → Iface U → Iface U × error)
  SerializeWith : Option (Iface U → Iface U → Iface U × error)

/-- Go zero value of `Config`: what a `Config{}` literal with no field set holds. -/
def Config.zero (U Eff : Type) : Config U Eff :=
  { cacheType := 0, Size := 0, DefaultTTL := 0, OnAdd := none, OnDel := none,
    OnEvict := none, OnMiss := none, OnPurge := none, DeserializeWith := none,
    SerializeWith := none }

/-! ## `buildCache` -/

/-- Source: `func buildCache(c *baseCache, cb Config)`. `NewRealClock` is the
result of the constructor of that name, declared outside `cache.go`.
`&cb.DefaultTTL` is a non-nil pointer to the callee's copy of the field, and
`&stats{}` a non-nil pointer to zeroed counters. -/
def buildCache {U Eff Clock Mutex Group : Type} (NewRealClock : Clock)
    (c : baseCache U Eff Clock Mutex Group) (cb : Config U Eff) :
    baseCache U Eff Clock Mutex Group :=
  { c with
    clock := NewRealClock
    defaultTTL := some cb.DefaultTTL
    size := cb.Size
    onAdd := cb.OnAdd
    onDel := cb.OnDel
    onEvict := cb.OnEvict
    onMiss := cb.OnMiss
    onPurge := cb.OnPurge
    stats := some {} }

/-! ## `load` and the producer it hands to `loadGroup.Do` -/

/-- Evaluation of `f(g(x))` in Go: the argument call runs first, and a fault in it
means `f` is never invoked. -/
def Outcome.andThen {U α β : Type} (o : Outcome U α) (f : α → Outcome U β) : Outcome U β :=
  match o with
  | .ret a => f a
  | .panic r => .panic r

/-- Value of `recover()` called directly by a deferred function once the body has
finished with outcome `o`: `nil` when the goroutine is not panicking, the panic
value (itself possibly nil) otherwise. In both cases the goroutine is no longer
panicking after the call. -/
def recover {U α : Type} (o : Outcome U α) : Iface U :=
  match o with
  | .ret _ => none
  | .panic r => r

/-- Named results `(v interface{}, e error)` as the deferred function finds them:
the operands of a completed `return`, or the zero values when the body faulted
before `return` could assign them. -/
def namedResults {U : Type} (o : Outcome U (Iface U × error)) : Iface U × error :=
  match o with
  | .ret ve => ve
  | .panic _ => (none, none)

/-- Loader signature: `(key) -> (value, ttl, error)`. `loaderExpireFunc` is used by
`load` but declared outside `cache.go`. -/
abbrev LoaderFn (U : Type) := Iface U → Outcome U (Iface U × Option Duration × error)

/-- Type of the callback `cb func(interface{}, *time.Duration, error) (interface{}, error)`. -/
abbrev LoadCb (U : Type) := Iface U → Option Duration → error → Outcome U (Iface U × error)

/-- Source: the function literal passed to `Do` in `load`:
```
func() (v interface{}, e error) {
    defer func() {
        if r := recover(); r != nil {
            e = fmt.Errorf("Loader panics: %v", r)
        }
    }()
    return cb(c.loaderExpireFunc(key))
}
```
`render` is the `%v` rendering of `fmt` on a non-nil value, the only one the guard
`r != nil` lets through. The deferred function always calls `recover()`, which ends
any panic of the body, so the literal returns normally with its named results:
`e` overwritten when `r != nil`, both left as they were when `r == nil`. -/
def producer {U : Type} (render : U → String) (loaderExpireFunc : LoaderFn U)
    (key : Iface U) (cb : LoadCb U) : Outcome U (Iface U × error) :=
  let body : Outcome U (Iface U × error) :=
    (loaderExpireFunc key).andThen (fun t => cb t.1 t.2.1 t.2.2)
  let ve := namedResults body
  match recover body with
  | some r => .ret (ve.1, some (Errorf ("Loader panics: " ++ render r)))
  | none => .ret ve

/-- Signature of `Group.Do(key, fn, isWait) -> (value, called, error)`; `Do` is
declared outside `cache.go` and may update the group. -/
abbrev DoFn (U Group : Type) :=
  Group → Iface U → (Unit → Outcome U (Iface U × error)) → Bool →
    (Iface U × Bool × error) × Group

/-- Source: `func (c *baseCache) load(key, cb, isWait) (interface{}, bool, error)`.
Returns the triple together with the receiver after the call. -/
def load {U Eff Clock Mutex Group : Type} (render : U → String) (Do : DoFn U Group)
    (loaderExpireFunc : LoaderFn U) (c : baseCache U Eff Clock Mutex Group)
    (key : Iface U) (cb : LoadCb U) (isWait : Bool) :
    (Iface U × Bool × error) × baseCache U Eff Clock Mutex Group :=
  let res := Do c.loadGroup key (fun _ => producer render loaderExpireFunc key cb) isWait
  let v := res.1.1
  let called := res.1.2.1
  let err := res.1.2.2
  let c1 := { c with loadGroup := res.2 }
  match err with
  | some e => ((none, called, some e), c1)
  | none => ((v, called, none), c1)

/-! ## Concrete instances used to evaluate the definitions -/

/-- A cache over string values with every field at its Go zero value. -/
def emptyCache : baseCache String Nat Unit Unit Nat :=
  { clock := (), size := 0, mu := (), defaultTTL := none, onAdd := none, onDel := none,
    onEvict := none, onMiss := none, onPurge := none, deserializeWith := none,
    serializeWith := none, loadGroup := 0, stats := none }

/-- A serializer that stores the value unchanged. -/
def idSerializer : Iface String → Iface String → Iface String × error :=
  fun _ v => (v, none)

/-- A configuration that sets both transformation hooks and nothing else. -/
def hooksConfig : Config String Nat :=
  { Config.zero String Nat with
    SerializeWith := some idSerializer
    DeserializeWith := some idSerializer }

/-- A `Do` with no call in flight: runs the producer on the calling goroutine and
returns its result, counting the call in the group. -/
def runDo : DoFn String Nat :=
  fun g _ fn _ =>
    match fn () with
    | .ret ve => ((ve.1, false, ve.2), g + 1)
    | .panic _ => ((none, false, none), g + 1)

/-- A `Do` that reports a value together with an error. -/
def bothDo : DoFn String Nat :=
  fun g _ _ _ => ((some "stale", true, some (Errorf "boom")), g)

/-- A loader that faults. -/
def faultyLoader : LoaderFn String := fun _ => .panic (some "db down")

/-- A loader that calls `panic(nil)`, recovered as a nil value. -/
def nilPanicLoader : LoaderFn String := fun _ => .panic none

/-- A loader that fails with an ordinary error. -/
def failingLoader : LoaderFn String := fun _ => .ret (none, none, some (Errorf "no row"))

/-- A loader that succeeds. -/
def okLoader : LoaderFn String := fun k => .ret (k, some 5, none)

/-- A callback that passes the loaded value and error through. -/
def passCb : LoadCb String := fun v _ e => .ret (v, e)

/-- A callback that faults whatever it is given. -/
def faultyCb : LoadCb String := fun _ _ _ => .panic (some "cb broke")

/-! ## Theorems: `buildCache` -/

/-- C4: after `buildCache(c, cb)` the cache has `size = cb.Size`, `onAdd = cb.OnAdd`,
`onDel = cb.OnDel`, `onEvict = cb.OnEvict`, `onMiss = cb.OnMiss` and
`onPurge = cb.OnPurge`, whatever `c` held in those fields before. -/
theorem buildCache_copies_options {U Eff Clock Mutex Group : Type} (NewRealClock : Clock)
    (c : baseCache U Eff Clock Mutex Group) (cb : Config U Eff) :
    (buildCache NewRealClock c cb).size = cb.Size ∧
    (buildCache NewRealClock c cb).onAdd = cb.OnAdd ∧
    (buildCache NewRealClock c cb).onDel = cb.OnDel ∧
    (buildCache NewRealClock c cb).onEvict = cb.OnEvict ∧
    (buildCache NewRealClock c cb).onMiss = cb.OnMiss ∧
    (buildCache NewRealClock c cb).onPurge = cb.OnPurge :=
  ⟨rfl, rfl, rfl, rfl, rfl, rfl⟩

/-- C5 (evaluation at the failing input): building the all-zero cache from a `Config`
that sets `SerializeWith` and `DeserializeWith` leaves both hooks of the cache nil,
so neither equals the configured hook. -/
theorem buildCache_drops_hooks :
    hooksConfig.SerializeWith = some idSerializer ∧
    hooksConfig.DeserializeWith = some idSerializer ∧
    (buildCache () emptyCache hooksConfig).serializeWith = none ∧
    (buildCache () emptyCache hooksConfig).deserializeWith = none ∧
    (buildCache () emptyCache hooksConfig).serializeWith ≠ hooksConfig.SerializeWith ∧
    (buildCache () emptyCache hooksConfig).deserializeWith ≠ hooksConfig.DeserializeWith :=
  ⟨rfl, rfl, rfl, rfl, fun h => Option.noConfusion h, fun h => Option.noConfusion h⟩

/-- C6 (counterexample): the zero `Config` has `DefaultTTL = 0`, yet the cache built
from it holds a non-nil `defaultTTL`; it is a pointer to the zero duration. -/
theorem buildCache_zero_ttl_not_nil :
    (Config.zero String Nat).DefaultTTL = 0 ∧
    (buildCache () emptyCache (Config.zero String Nat)).defaultTTL ≠ none ∧
    (buildCache () emptyCache (Config.zero String Nat)).defaultTTL = some 0 :=
  ⟨rfl, fun h => Option.noConfusion h, rfl⟩

/-- C6 (amended): for every `Config` whose `DefaultTTL` is zero, `buildCache` records
a non-nil `defaultTTL` that points to the zero duration. -/
theorem buildCache_zero_ttl_stored {U Eff Clock Mutex Group : Type} (NewRealClock : Clock)
    (c : baseCache U Eff Clock Mutex Group) (cb : Config U Eff) (h0 : cb.DefaultTTL = 0) :
    (buildCache NewRealClock c cb).defaultTTL = some 0 := by
  show some cb.DefaultTTL = some 0
  rw [h0]

/-- Witness for `buildCache_zero_ttl_stored` at the zero `Config`. -/
theorem buildCache_zero_ttl_stored_witness :
    (Config.zero String Nat).DefaultTTL = 0 ∧
    (buildCache () emptyCache (Config.zero String Nat)).defaultTTL = some 0 :=
  ⟨rfl, buildCache_zero_ttl_stored () emptyCache (Config.zero String Nat) rfl⟩

/-- C8: `TypeSimple`, `TypeLRU`, `TypeLFU`, `TypeARC` are 0, 1, 2, 3; they are the four
identifiers of the block and pairwise distinct; `TypeSimple` is the value of
`cacheType` in a zero `Config`. -/
theorem policy_identifiers :
    TypeSimple = 0 ∧ TypeLRU = 1 ∧ TypeLFU = 2 ∧ TypeARC = 3 ∧
    cacheTypes = [0, 1, 2, 3] ∧ cacheTypes.length = 4 ∧ cacheTypes.Nodup ∧
    TypeSimple ≠ TypeLRU ∧ TypeSimple ≠ TypeLFU ∧ TypeSimple ≠ TypeARC ∧
    TypeLRU ≠ TypeLFU ∧ TypeLRU ≠ TypeARC ∧ TypeLFU ≠ TypeARC ∧
    (∀ U Eff : Type, (Config.zero U Eff).cacheType = TypeSimple) := by
  refine ⟨rfl, rfl, rfl, rfl, rfl, rfl, by decide, by decide, by decide, by decide,
    by decide, by decide, by decide, fun _ _ => rfl⟩

/-- C9: for every cache and every `Config` (zero and negative `DefaultTTL` included),
after `buildCache` the `defaultTTL` pointer is non-nil and points to `cb.DefaultTTL`. -/
theorem buildCache_defaultTTL_set {U Eff Clock Mutex Group : Type} (NewRealClock : Clock)
    (c : baseCache U Eff Clock Mutex Group) (cb : Config U Eff) :
    (buildCache NewRealClock c cb).defaultTTL ≠ none ∧
    (buildCache NewRealClock c cb).defaultTTL = some cb.DefaultTTL :=
  ⟨fun h => Option.noConfusion h, rfl⟩

/-- C10: `buildCache` with `b` after `buildCache` with `a` gives the state of
`buildCache` with `b` alone; it is idempotent for a fixed `Config`; the statistics
are the zero counters whatever they were; and `loadGroup`, `mu`, `serializeWith`,
`deserializeWith` keep the value they had. -/
theorem buildCache_last_wins {U Eff Clock Mutex Group : Type} (NewRealClock : Clock)
    (s : baseCache U Eff Clock Mutex Group) (a b : Config U Eff) :
    buildCache NewRealClock (buildCache NewRealClock s a) b = buildCache NewRealClock s b ∧
    buildCache NewRealClock (buildCache NewRealClock s a) a = buildCache NewRealClock s a ∧
    (buildCache NewRealClock s a).stats = some { hitCount := 0, missCount := 0 } ∧
    (buildCache NewRealClock s a).loadGroup = s.loadGroup ∧
    (buildCache NewRealClock s a).mu = s.mu ∧
    (buildCache NewRealClock s a).serializeWith = s.serializeWith ∧
    (buildCache NewRealClock s a).deserializeWith = s.deserializeWith :=
  ⟨rfl, rfl, rfl, rfl, rfl, rfl, rfl⟩

/-! ## Theorems: the producer and `load` -/

/-- A fault raised by the loader is turned into the error result. -/
theorem producer_loader_panic {U : Type} (render : U → String) (loaderExpireFunc : LoaderFn U)
    (key : Iface U) (cb : LoadCb U) (r : U) (h : loaderExpireFunc key = .panic (some r)) :
    producer render loaderExpireFunc key cb =
      .ret (none, some (Errorf ("Loader panics: " ++ render r))) := by
  simp [producer, h, Outcome.andThen, recover, namedResults]

/-- A fault raised by the callback is turned into the error result. -/
theorem producer_cb_panic {U : Type} (render : U → String) (loaderExpireFunc : LoaderFn U)
    (key : Iface U) (cb : LoadCb U) (r : U) (t : Iface U × Option Duration × error)
    (h : loaderExpireFunc key = .ret t) (hcb : cb t.1 t.2.1 t.2.2 = .panic (some r)) :
    producer render loaderExpireFunc key cb =
      .ret (none, some (Errorf ("Loader panics: " ++ render r))) := by
  simp [producer, h, hcb, Outcome.andThen, recover, namedResults]

/-- Without a fault the producer returns what the callback returns on the loader's triple. -/
theorem producer_no_fault {U : Type} (render : U → String) (loaderExpireFunc : LoaderFn U)
    (key : Iface U) (cb : LoadCb U) (t : Iface U × Option Duration × error)
    (ve : Iface U × error)
    (h : loaderExpireFunc key = .ret t) (hcb : cb t.1 t.2.1 t.2.2 = .ret ve) :
    producer render loaderExpireFunc key cb = .ret ve := by
  simp [producer, h, hcb, Outcome.andThen, recover, namedResults]

/-- A fault whose recovered value is nil, raised by the loader or by the callback,
leaves both named results at their zero value: the producer returns `(nil, nil)`. -/
theorem producer_nil_panic {U : Type} (render : U → String) (loaderExpireFunc : LoaderFn U)
    (key : Iface U) (cb : LoadCb U)
    (h : loaderExpireFunc key = .panic none ∨
      ∃ t, loaderExpireFunc key = .ret t ∧ cb t.1 t.2.1 t.2.2 = .panic none) :
    producer render loaderExpireFunc key cb = .ret (none, none) := by
  rcases h with h | ⟨t, h, hcb⟩
  · simp [producer, h, Outcome.andThen, recover, namedResults]
  · simp [producer, h, hcb, Outcome.andThen, recover, namedResults]

/-- The producer never propagates a fault: it always returns. -/
theorem producer_returns {U : Type} (render : U → String) (loaderExpireFunc : LoaderFn U)
    (key : Iface U) (cb : LoadCb U) :
    ∃ ve, producer render loaderExpireFunc key cb = .ret ve := by
  cases h : loaderExpireFunc key with
  | panic r =>
    cases r with
    | none => exact ⟨_, producer_nil_panic render loaderExpireFunc key cb (Or.inl h)⟩
    | some r => exact ⟨_, producer_loader_panic render loaderExpireFunc key cb r h⟩
  | ret t =>
    cases hcb : cb t.1 t.2.1 t.2.2 with
    | panic r =>
      cases r with
      | none => exact ⟨_, producer_nil_panic render loaderExpireFunc key cb (Or.inr ⟨t, h, hcb⟩)⟩
      | some r => exact ⟨_, producer_cb_panic render loaderExpireFunc key cb r t h hcb⟩
    | ret ve => exact ⟨_, producer_no_fault render loaderExpireFunc key cb t ve h hcb⟩

/-- The triple `load` returns, computed from the triple `Do` returned. -/
theorem load_result {U Eff Clock Mutex Group : Type} (render : U → String) (Do : DoFn U Group)
    (loaderExpireFunc : LoaderFn U) (c : baseCache U Eff Clock Mutex Group)
    (key : Iface U) (cb : LoadCb U) (isWait : Bool) (v : Iface U) (called : Bool)
    (err : error) (g : Group)
    (hDo : Do c.loadGroup key (fun _ => producer render loaderExpireFunc key cb) isWait
      = ((v, called, err), g)) :
    (load render Do loaderExpireFunc c key cb isWait).1 =
      (match err with
       | some e => (none, called, some e)
       | none => (v, called, none)) := by
  unfold load
  simp only [hDo]
  cases err <;> rfl

/-- C1 (counterexample): a loader that calls `panic(nil)`, recovered as nil, makes the
producer return a nil value with a nil error, and `load` through a `Do` that runs the
producer returns `(nil, false, nil)`: no "Loader panics: " error is reported. -/
theorem load_nil_panic_no_error :
    nilPanicLoader (some "k") = .panic none ∧
    producer id nilPanicLoader (some "k") passCb = .ret (none, none) ∧
    (load id runDo nilPanicLoader emptyCache (some "k") passCb true).1 = (none, false, none) ∧
    (load id runDo nilPanicLoader emptyCache (some "k") passCb true).1.2.2 = none :=
  ⟨rfl, rfl, rfl, rfl⟩

/-- C1 (amended): if evaluating `cb(loaderExpireFunc(key))` faults with a non-nil
recovered payload `r`, in the loader or in `cb`, the producer returns (it does not
fault) a nil value and the error whose message is "Loader panics: " followed by the
rendering of `r`; and when `Do` returns that result with flag `called`, `load`
returns `(nil, called, that error)`. -/
theorem load_recovers_fault {U Eff Clock Mutex Group : Type} (render : U → String)
    (Do : DoFn U Group) (loaderExpireFunc : LoaderFn U)
    (c : baseCache U Eff Clock Mutex Group) (key : Iface U) (cb : LoadCb U)
    (isWait : Bool) (r : U)
    (hfault : loaderExpireFunc key = .panic (some r) ∨
      ∃ t, loaderExpireFunc key = .ret t ∧ cb t.1 t.2.1 t.2.2 = .panic (some r)) :
    producer render loaderExpireFunc key cb =
        .ret (none, some (Errorf ("Loader panics: " ++ render r))) ∧
    (Errorf ("Loader panics: " ++ render r)).msg = "Loader panics: " ++ render r ∧
    (∀ (called : Bool) (g : Group),
      Do c.loadGroup key (fun _ => producer render loaderExpireFunc key cb) isWait
        = ((none, called, some (Errorf ("Loader panics: " ++ render r))), g) →
      (load render Do loaderExpireFunc c key cb isWait).1
        = (none, called, some (Errorf ("Loader panics: " ++ render r)))) := by
  refine ⟨?_, rfl, ?_⟩
  · rcases hfault with h | ⟨t, h, hcb⟩
    · exact producer_loader_panic render loaderExpireFunc key cb r h
    · exact producer_cb_panic render loaderExpireFunc key cb r t h hcb
  · intro called g hDo
    rw [load_result render Do loaderExpireFunc c key cb isWait _ _ _ _ hDo]

/-- Witness for `load_recovers_fault`: a faulting loader, and a faulting callback
behind a loader that succeeds, both run through `runDo`. -/
theorem load_recovers_fault_witness :
    (faultyLoader (some "k") = .panic (some "db down") ∧
      producer id faultyLoader (some "k") passCb
        = .ret (none, some (Errorf "Loader panics: db down")) ∧
      (load id runDo faultyLoader emptyCache (some "k") passCb true).1
        = (none, false, some (Errorf "Loader panics: db down"))) ∧
    (okLoader (some "k") = .ret (some "k", some 5, none) ∧
      faultyCb (some "k") (some 5) none = .panic (some "cb broke") ∧
      producer id okLoader (some "k") faultyCb
        = .ret (none, some (Errorf "Loader panics: cb broke")) ∧
      (load id runDo okLoader emptyCache (some "k") faultyCb false).1
        = (none, false, some (Errorf "Loader panics: cb broke"))) :=
  ⟨⟨rfl,
    (load_recovers_fault id runDo faultyLoader emptyCache (some "k") passCb true
      "db down" (Or.inl rfl)).1,
    (load_recovers_fault id runDo faultyLoader emptyCache (some "k") passCb true
      "db down" (Or.inl rfl)).2.2 false 1 rfl⟩,
   ⟨rfl, rfl,
    (load_recovers_fault id runDo okLoader emptyCache (some "k") faultyCb false
      "cb broke" (Or.inr ⟨(some "k", some 5, none), rfl, rfl⟩)).1,
    (load_recovers_fault id runDo okLoader emptyCache (some "k") faultyCb false
      "cb broke" (Or.inr ⟨(some "k", some 5, none), rfl, rfl⟩)).2.2 false 1 rfl⟩⟩

/-- C2: the error `load` returns is exactly the error `Do` returned, so it is non-nil
if and only if the error of `Do` is; and when that error is non-nil the value `load`
returns is nil, whatever value `Do` returned with it. -/
theorem load_error_passthrough {U Eff Clock Mutex Group : Type} (render : U → String)
    (Do : DoFn U Group) (loaderExpireFunc : LoaderFn U)
    (c : baseCache U Eff Clock Mutex Group) (key : Iface U) (cb : LoadCb U)
    (isWait : Bool) :
    (load render Do loaderExpireFunc c key cb isWait).1.2.2
      = (Do c.loadGroup key (fun _ => producer render loaderExpireFunc key cb) isWait).1.2.2 ∧
    ((load render Do loaderExpireFunc c key cb isWait).1.2.2 ≠ none ↔
      (Do c.loadGroup key (fun _ => producer render loaderExpireFunc key cb) isWait).1.2.2
        ≠ none) ∧
    ((Do c.loadGroup key (fun _ => producer render loaderExpireFunc key cb) isWait).1.2.2
        ≠ none →
      (load render Do loaderExpireFunc c key cb isWait).1.1 = none) := by
  rcases hDo : Do c.loadGroup key (fun _ => producer render loaderExpireFunc key cb) isWait
    with ⟨⟨v, called, err⟩, g⟩
  have hres := load_result render Do loaderExpireFunc c key cb isWait v called err g hDo
  cases err with
  | none => simp [hres]
  | some e => simp [hres]

/-- Witness for `load_error_passthrough`: `bothDo` returns the value "stale" together
with the error "boom"; `load` returns nil with that same error. -/
theorem load_error_passthrough_witness :
    (bothDo emptyCache.loadGroup (some "k") (fun _ => producer id okLoader (some "k") passCb)
      true).1 = (some "stale", true, some (Errorf "boom")) ∧
    (load id bothDo okLoader emptyCache (some "k") passCb true).1.2.2 = some (Errorf "boom") ∧
    (load id bothDo okLoader emptyCache (some "k") passCb true).1.1 = none :=
  ⟨rfl,
   (load_error_passthrough id bothDo okLoader emptyCache (some "k") passCb true).1,
   (load_error_passthrough id bothDo okLoader emptyCache (some "k") passCb true).2.2
     (fun h => Option.noConfusion h)⟩

/-- C3: `load` is determined by one call `Do(key, producer, isWait)` on its own
`loadGroup`, with the key and flag it was given: the group after `load` is the group
after that call and the `called` flag is the one `Do` returned, in either branch;
absent a fault the producer returns exactly what `cb` returns on the loader's
`(value, ttl, error)` triple, whatever the error in that triple; and when `Do`
returns `(v, called, nil)`, `load` returns `(v, called, nil)`. -/
theorem load_faithful_wrapper {U Eff Clock Mutex Group : Type} (render : U → String)
    (Do : DoFn U Group) (loaderExpireFunc : LoaderFn U)
    (c : baseCache U Eff Clock Mutex Group) (key : Iface U) (cb : LoadCb U)
    (isWait : Bool) :
    (load render Do loaderExpireFunc c key cb isWait).2.loadGroup
      = (Do c.loadGroup key (fun _ => producer render loaderExpireFunc key cb) isWait).2 ∧
    (load render Do loaderExpireFunc c key cb isWait).1.2.1
      = (Do c.loadGroup key (fun _ => producer render loaderExpireFunc key cb) isWait).1.2.1 ∧
    (∀ (v : Iface U) (ttl : Option Duration) (e : error) (ve : Iface U × error),
      loaderExpireFunc key = .ret (v, ttl, e) → cb v ttl e = .ret ve →
      producer render loaderExpireFunc key cb = .ret ve) ∧
    (∀ (v : Iface U) (called : Bool) (g : Group),
      Do c.loadGroup key (fun _ => producer render loaderExpireFunc key cb) isWait
        = ((v, called, none), g) →
      (load render Do loaderExpireFunc c key cb isWait).1 = (v, called, none)) := by
  refine ⟨?_, ?_, ?_, ?_⟩
  · unfold load
    rcases Do c.loadGroup key (fun _ => producer render loaderExpireFunc key cb) isWait
      with ⟨⟨v, called, err⟩, g⟩
    cases err <;> rfl
  · rcases hDo : Do c.loadGroup key (fun _ => producer render loaderExpireFunc key cb) isWait
      with ⟨⟨v, called, err⟩, g⟩
    rw [load_result render Do loaderExpireFunc c key cb isWait v called err g hDo]
    cases err <;> rfl
  · intro v ttl e ve h hcb
    exact producer_no_fault render loaderExpireFunc key cb (v, ttl, e) ve h hcb
  · intro v called g hDo
    rw [load_result render Do loaderExpireFunc c key cb isWait v called none g hDo]

/-- Witness for `load_faithful_wrapper`: a loader that succeeds and a loader that
fails with an ordinary error, each passed through `passCb` and `runDo`. -/
theorem load_faithful_wrapper_witness :
    (producer id okLoader (some "k") passCb = .ret (some "k", none) ∧
      (load id runDo okLoader emptyCache (some "k") passCb true).1
        = (some "k", false, none) ∧
      (load id runDo okLoader emptyCache (some "k") passCb true).2.loadGroup = 1) ∧
    producer id failingLoader (some "k") passCb = .ret (none, some (Errorf "no row")) :=
  ⟨⟨(load_faithful_wrapper id runDo okLoader emptyCache (some "k") passCb true).2.2.1
      (some "k") (some 5) none (some "k", none) rfl rfl,
    (load_faithful_wrapper id runDo okLoader emptyCache (some "k") passCb true).2.2.2
      (some "k") false 1 rfl,
    (load_faithful_wrapper id runDo okLoader emptyCache (some "k") passCb true).1⟩,
   (load_faithful_wrapper id runDo failingLoader emptyCache (some "k") passCb true).2.2.1
      none none (some (Errorf "no row")) (none, some (Errorf "no row")) rfl rfl⟩

end gcache
